import Mathlib

set_option autoImplicit false

/-!
Verification model of the `bits_client` repository.

Each Rust module of the repository that the properties below touch is given a
shallow embedding: pure data types become Lean inductives/structures with the
same constructors and fields, and the effectful functions become pure Lean
functions in which the outcome of each OS call (overlapped I/O completion,
`CancelIoEx`, BITS service calls, condition-variable wakeups) is passed in
explicitly as an oracle argument.  All definitions are executable.
-/

/-- Numeric OS status code, `HRESULT` in the source (`i32`). -/
abbrev HRESULT := Int

/-- `comedy::ErrorCode` (comedy/src/error.rs). -/
inductive ErrorCode
  | NullPtr
  | Rc (code : Nat)
  | LastError (code : Nat)
  | HResult (hr : HRESULT)
deriving DecidableEq, Repr

/-- `comedy::FileLine` (comedy/src/error.rs). -/
structure FileLine where
  file : String
  line : Nat
deriving DecidableEq, Repr

/-- `comedy::Error` (comedy/src/error.rs): raw status code plus the originating
call name and location. -/
structure comedy.Error where
  code : Option ErrorCode
  function : Option String
  file_line : Option FileLine
deriving DecidableEq, Repr

/-- The OS `INFINITE` wait sentinel, `0xFFFF_FFFF`. -/
def INFINITE : Nat := 0xFFFFFFFF

/-- `WaitTimeout` (named_pipe/src/overlapped.rs): either a finite number of
milliseconds or the infinite wait. -/
inductive WaitTimeout
  | Milliseconds (ms : Nat)
  | Infinite
deriving DecidableEq, Repr

/-- `WaitTimeout::from_millis` (named_pipe/src/overlapped.rs): fails exactly on
the `INFINITE` sentinel, otherwise yields a finite timeout of that many
milliseconds. -/
def WaitTimeout.from_millis (millis : Nat) : Except Unit WaitTimeout :=
  if millis = INFINITE then Except.error ()
  else Except.ok (WaitTimeout.Milliseconds millis)

/-- `WaitTimeout::infinite` (named_pipe/src/overlapped.rs). -/
def WaitTimeout.infinite : WaitTimeout := WaitTimeout.Infinite

/-- `BitsMonitorClient::get_status` (src/lib.rs) computes its pipe-read timeout
as `WaitTimeout::from_millis(timeout_millis).unwrap()`; `none` models the
panic of `unwrap` on the error case. -/
def monitor_client_read_timeout (timeout_millis : Nat) : Option WaitTimeout :=
  (WaitTimeout.from_millis timeout_millis).toOption

/-- `named_pipe::PipeError` (named_pipe/src/lib.rs). -/
inductive PipeError
  | NotConnected
  | Timeout
  | WriteCount (expected : Nat) (wrote : Nat)
  | Api (e : comedy.Error)
deriving DecidableEq, Repr

/-- Oracle for one overlapped operation driven to completion by
`OverlappedResult::finish` (named_pipe/src/overlapped.rs): the wait timed out,
the operation failed with an OS error, or it completed transferring
`bytes_transferred` bytes. -/
inductive PipeIoOutcome
  | timedOut
  | osError (e : comedy.Error)
  | completed (bytes_transferred : Nat)
deriving DecidableEq, Repr

/-- `read_pipe_impl` (named_pipe/src/lib.rs): a timed-out wait is
`PipeError::Timeout`, an OS error is wrapped in `PipeError::Api`, and a
completed read returns the transferred prefix of the buffer (here: its
length). -/
def read_pipe_impl (o : PipeIoOutcome) : Except PipeError Nat :=
  match o with
  | PipeIoOutcome.timedOut => Except.error PipeError.Timeout
  | PipeIoOutcome.osError e => Except.error (PipeError.Api e)
  | PipeIoOutcome.completed bt => Except.ok bt

/-- `write_pipe_impl` (named_pipe/src/lib.rs): as for reads, but a completed
write that accepted fewer bytes than the buffer length `len` is the distinct
`PipeError::WriteCount` error carrying expected and actual counts. -/
def write_pipe_impl (len : Nat) (o : PipeIoOutcome) : Except PipeError Unit :=
  match o with
  | PipeIoOutcome.timedOut => Except.error PipeError.Timeout
  | PipeIoOutcome.osError e => Except.error (PipeError.Api e)
  | PipeIoOutcome.completed bt =>
    if bt ≠ len then Except.error (PipeError.WriteCount len bt)
    else Except.ok ()

/-- `connect_pipe_impl` (named_pipe/src/lib.rs). -/
def connect_pipe_impl (o : PipeIoOutcome) : Except PipeError Unit :=
  match o with
  | PipeIoOutcome.timedOut => Except.error PipeError.Timeout
  | PipeIoOutcome.osError e => Except.error (PipeError.Api e)
  | PipeIoOutcome.completed _ => Except.ok ()

/-- `named_pipe::PipeServer` (named_pipe/src/lib.rs): pipe name plus the
operation slot `ovl`; `ovl = none` means logically disconnected
(`is_connected` is `ovl.is_some()`). -/
structure PipeServer where
  name : String
  ovl : Option Unit
deriving DecidableEq, Repr

/-- `PipeServer::is_connected`. -/
def PipeServer.is_connected (s : PipeServer) : Bool := s.ovl.isSome

/-- `PipeServer::connect`: drops any previous connection, then waits for a
client; on success the operation slot is (re)occupied, on any error the
endpoint stays disconnected. -/
def PipeServer.connect (s : PipeServer) (o : PipeIoOutcome) :
    Except PipeError Unit × PipeServer :=
  match connect_pipe_impl o with
  | Except.ok () => (Except.ok (), { s with ovl := some () })
  | Except.error e => (Except.error e, { s with ovl := none })

/-- `PipeServer::read`: fails with `NotConnected` when the slot is empty;
otherwise any error from `read_pipe_impl` (timeout included) disconnects the
endpoint, and only a successful read keeps it connected. -/
def PipeServer.read (s : PipeServer) (o : PipeIoOutcome) :
    Except PipeError Nat × PipeServer :=
  match s.ovl with
  | none => (Except.error PipeError.NotConnected, s)
  | some _ =>
    match read_pipe_impl o with
    | Except.ok n => (Except.ok n, { s with ovl := some () })
    | Except.error e => (Except.error e, { s with ovl := none })

/-- `PipeServer::write` for a buffer of length `len`: fails with
`NotConnected` when the slot is empty; otherwise any error from
`write_pipe_impl` disconnects the endpoint. -/
def PipeServer.write (s : PipeServer) (len : Nat) (o : PipeIoOutcome) :
    Except PipeError Unit × PipeServer :=
  match s.ovl with
  | none => (Except.error PipeError.NotConnected, s)
  | some _ =>
    match write_pipe_impl len o with
    | Except.ok () => (Except.ok (), { s with ovl := some () })
    | Except.error e => (Except.error e, { s with ovl := none })

/-- `bits_protocol::PROTOCOL_VERSION` (src/bits_protocol.rs). -/
def PROTOCOL_VERSION : Nat := 0

/-- `bits_protocol::MAX_COMMAND`. -/
def MAX_COMMAND : Nat := 0x4000

/-- `bits_protocol::MAX_RESPONSE`. -/
def MAX_RESPONSE : Nat := 0x4000

/-- The version check both client-side connectors perform on the one-byte
reply they read back (`connect` in src/bits_client.rs and `connect_task` in
src/lib.rs): `ensure!(reply.len() == 1)` then
`ensure!(reply[0] == PROTOCOL_VERSION)`. -/
def connect_version_check (reply : List Nat) : Except String Unit :=
  if reply.length ≠ 1 then Except.error "wrong version length"
  else if reply.headD 0xFF ≠ PROTOCOL_VERSION then
    Except.error "protocol version mismatch"
  else Except.ok ()

/-- The worker-side handshake of `run_commands`
(bits_server/src/bits_server.rs): read the peer's message into a one-byte
buffer, ensure it is exactly one byte equal to `PROTOCOL_VERSION`, and only
then write back the worker's own version byte and proceed to the command
loop.  The returned list is the byte written back. -/
def run_commands_handshake (received : List Nat) : Except String (List Nat) :=
  if received.length ≠ 1 then Except.error "wrong version length"
  else if received.headD 0xFF ≠ PROTOCOL_VERSION then
    Except.error "protocol version mismatch"
  else Except.ok [PROTOCOL_VERSION]

/-- The single version byte each client-side connector writes before reading
the reply (`&[PROTOCOL_VERSION; 1]`). -/
def client_version_send : List Nat := [PROTOCOL_VERSION]

/-- `S_OK`. -/
def S_OK : HRESULT := 0

/-- `E_FAIL` (`0x80004005` as a signed 32-bit value). -/
def E_FAIL : HRESULT := -2147467259

/-- Behaviour of one caller-supplied notification handler on one invocation:
it returns `Ok(())`, returns `Err(hr)`, or panics. -/
inductive HandlerOutcome
  | success
  | failure (hr : HRESULT)
  | panicked
deriving DecidableEq, Repr

/-- The fault boundary each stub in bits/src/callback.rs wraps a handler call
in: `match catch_unwind(|| cb()) { Ok(Ok(())) => S_OK, Ok(Err(hr)) => hr,
Err(_) => E_FAIL }`. -/
def catch_handler : HandlerOutcome → HRESULT
  | HandlerOutcome.success => S_OK
  | HandlerOutcome.failure hr => hr
  | HandlerOutcome.panicked => E_FAIL

/-- `BackgroundCopyCallback` (bits/src/callback.rs): the three optional
handlers (each modelled by its behaviour on the invocation at hand).  The
reference count is not needed for the properties below. -/
structure BackgroundCopyCallback where
  transferred_cb : Option HandlerOutcome
  error_cb : Option HandlerOutcome
  modification_cb : Option HandlerOutcome
deriving DecidableEq, Repr

/-- `transferred_stub` (bits/src/callback.rs): invoke the transferred handler
inside the fault boundary if present, else return `S_OK`. -/
def transferred_stub (this : BackgroundCopyCallback) : HRESULT :=
  match this.transferred_cb with
  | some cb => catch_handler cb
  | none => S_OK

/-- `error_stub` (bits/src/callback.rs). -/
def error_stub (this : BackgroundCopyCallback) : HRESULT :=
  match this.error_cb with
  | some cb => catch_handler cb
  | none => S_OK

/-- `modification_stub` (bits/src/callback.rs). -/
def modification_stub (this : BackgroundCopyCallback) : HRESULT :=
  match this.modification_cb with
  | some cb => catch_handler cb
  | none => S_OK

/-- `OverlappedPending` (named_pipe/src/overlapped.rs): the operation slot is
`some` exactly while the operation has not been observed finished
(`get_result` moves the slot out when it returns `Finished`). -/
structure OverlappedPending where
  ovl : Option Unit
deriving DecidableEq, Repr

/-- The observable steps `OverlappedPending::drop` can take. -/
inductive DropStep
  | cancelIoEx
  | waitForCancelAck
deriving DecidableEq, Repr

/-- `OverlappedPending::drop` (named_pipe/src/overlapped.rs): nothing to do if
the operation already finished; otherwise request cancellation with
`CancelIoEx` and, only when that request succeeded (`cancel_request_ok`),
block in `GetOverlappedResult(.., bWait = TRUE)` for the cancellation
acknowledgment. -/
def OverlappedPending.drop (p : OverlappedPending) (cancel_request_ok : Bool) :
    List DropStep :=
  match p.ovl with
  | none => []
  | some _ =>
    if cancel_request_ok then [DropStep.cancelIoEx, DropStep.waitForCancelAck]
    else [DropStep.cancelIoEx]

/-- `guid_win::Guid`: the opaque 128-bit job identifier, abstracted to its
128-bit value. -/
structure Guid where
  id : Nat
deriving DecidableEq, Repr

/-- `bits_protocol::MonitorConfig` (src/bits_protocol.rs). -/
structure MonitorConfig where
  pipe_name : String
  interval_millis : Nat
deriving DecidableEq, Repr

/-- `bits_protocol::StartJobCommand` (src/bits_protocol.rs). -/
structure StartJobCommand where
  url : String
  save_path : String
  monitor : Option MonitorConfig
deriving DecidableEq, Repr

/-- `bits_protocol::MonitorJobCommand`. -/
structure MonitorJobCommand where
  guid : Guid
  monitor : MonitorConfig
deriving DecidableEq, Repr

/-- `bits_protocol::ResumeJobCommand`. -/
structure ResumeJobCommand where
  guid : Guid
deriving DecidableEq, Repr

/-- `bits_protocol::SetJobPriorityCommand`. -/
structure SetJobPriorityCommand where
  guid : Guid
  foreground : Bool
deriving DecidableEq, Repr

/-- `bits_protocol::SetUpdateIntervalCommand`. -/
structure SetUpdateIntervalCommand where
  guid : Guid
  interval_millis : Nat
deriving DecidableEq, Repr

/-- `bits_protocol::CompleteJobCommand`. -/
structure CompleteJobCommand where
  guid : Guid
deriving DecidableEq, Repr

/-- `bits_protocol::CancelJobCommand`. -/
structure CancelJobCommand where
  guid : Guid
deriving DecidableEq, Repr

/-- `bits_protocol::Command` (src/bits_protocol.rs, lines 23-31): the closed
tagged union of protocol requests, with exactly these seven constructors. -/
inductive Command
  | StartJob (cmd : StartJobCommand)
  | MonitorJob (cmd : MonitorJobCommand)
  | ResumeJob (cmd : ResumeJobCommand)
  | SetJobPriority (cmd : SetJobPriorityCommand)
  | SetUpdateInterval (cmd : SetUpdateIntervalCommand)
  | CompleteJob (cmd : CompleteJobCommand)
  | CancelJob (cmd : CancelJobCommand)
deriving DecidableEq, Repr

/-- The payload-free constructor tag of a `Command`. -/
inductive CommandTag
  | StartJob
  | MonitorJob
  | ResumeJob
  | SetJobPriority
  | SetUpdateInterval
  | CompleteJob
  | CancelJob
deriving DecidableEq, Repr

/-- Tag of a `Command` value. -/
def Command.tag : Command → CommandTag
  | Command.StartJob _ => CommandTag.StartJob
  | Command.MonitorJob _ => CommandTag.MonitorJob
  | Command.ResumeJob _ => CommandTag.ResumeJob
  | Command.SetJobPriority _ => CommandTag.SetJobPriority
  | Command.SetUpdateInterval _ => CommandTag.SetUpdateInterval
  | Command.CompleteJob _ => CommandTag.CompleteJob
  | Command.CancelJob _ => CommandTag.CancelJob

/-- All seven command tags. -/
def CommandTag.all : List CommandTag :=
  [CommandTag.StartJob, CommandTag.MonitorJob, CommandTag.ResumeJob,
   CommandTag.SetJobPriority, CommandTag.SetUpdateInterval,
   CommandTag.CompleteJob, CommandTag.CancelJob]

/-- The client-facing operation vocabulary as the spec lists it (start,
monitor, suspend, resume, set-priority, set-update-interval, complete,
cancel).  This follows the spec's words, to be compared with the command set
the source dispatches. -/
inductive CommandOp
  | start
  | monitor
  | suspend
  | resume
  | setPriority
  | setUpdateInterval
  | complete
  | cancel
deriving DecidableEq, Repr

/-- Which operation the worker loop of `run_commands`
(bits_server/src/bits_server.rs, lines 54-65) executes for each command tag:
`StartJob => run_start`, `MonitorJob => run_monitor`, `ResumeJob =>
run_resume`, `SetJobPriority => run_set_priority`, `SetUpdateInterval =>
run_set_update_interval`, `CompleteJob => run_complete`, `CancelJob =>
run_cancel`. -/
def dispatch_tag : CommandTag → CommandOp
  | CommandTag.StartJob => CommandOp.start
  | CommandTag.MonitorJob => CommandOp.monitor
  | CommandTag.ResumeJob => CommandOp.resume
  | CommandTag.SetJobPriority => CommandOp.setPriority
  | CommandTag.SetUpdateInterval => CommandOp.setUpdateInterval
  | CommandTag.CompleteJob => CommandOp.complete
  | CommandTag.CancelJob => CommandOp.cancel

/-- The worker loop's dispatch on a full `Command` value. -/
def run_commands_dispatch (c : Command) : CommandOp :=
  dispatch_tag (Command.tag c)

/-- `bits::BitsJobPriority` (bits/src/lib.rs). -/
inductive BitsJobPriority
  | Foreground
  | High
  | Normal
  | Low
deriving DecidableEq, Repr

/-- `bits::BitsProxyUsage` (bits/src/lib.rs). -/
inductive BitsProxyUsage
  | NoProxy
  | Preconfig
  | AutoDetect
deriving DecidableEq, Repr

/-- Modelled from the spec: `HResultMessage` — a service status code together
with a human-readable description.  Its declaration is not under src/ (only
its construction in `format_error`, src/src/in_process/mod.rs, which fills
the fields `hr` and `message`). -/
structure HResultMessage where
  hr : HRESULT
  message : String
deriving DecidableEq, Repr

/-- The BITS job calls the in-process client issues against the
transfer-service binding (bits/src/lib.rs methods). -/
inductive JobAction
  | setProxyUsage (usage : BitsProxyUsage)
  | setMinimumRetryDelay (seconds : Nat)
  | setRedirectReport
  | setPriority (priority : BitsJobPriority)
  | registerCallbacks
  | addFile (url : String) (save_path : String)
  | resume
  | suspend
  | complete
  | cancel
deriving DecidableEq, Repr

/-- Modelled from the spec: lifecycle state a job of the external
transfer-service binding is in (§6; the binding's own 1:1 mapping onto the OS
service is out of scope in the source). -/
inductive JobLifecycle
  | Suspended
  | Queued
  | Acknowledged
  | Cancelled
deriving DecidableEq, Repr

/-- Modelled from the spec: the state the external transfer-service binding
keeps per job, restricted to what the client operations below touch. -/
structure JobState where
  name : String
  priority : BitsJobPriority
  files : List (String × String)
  lifecycle : JobLifecycle
deriving DecidableEq, Repr

/-- Modelled from the spec: effect of one job call on the service-side job. -/
def JobState.apply (j : JobState) : JobAction → JobState
  | JobAction.setProxyUsage _ => j
  | JobAction.setMinimumRetryDelay _ => j
  | JobAction.setRedirectReport => j
  | JobAction.setPriority p => { j with priority := p }
  | JobAction.registerCallbacks => j
  | JobAction.addFile url save_path => { j with files := j.files ++ [(url, save_path)] }
  | JobAction.resume => { j with lifecycle := JobLifecycle.Queued }
  | JobAction.suspend => { j with lifecycle := JobLifecycle.Suspended }
  | JobAction.complete => { j with lifecycle := JobLifecycle.Acknowledged }
  | JobAction.cancel => { j with lifecycle := JobLifecycle.Cancelled }

/-- Apply a sequence of job calls. -/
def JobState.apply_all (j : JobState) (actions : List JobAction) : JobState :=
  actions.foldl JobState.apply j

/-- Modelled from the spec: the external transfer service's job table. -/
def BitsServiceState := List (Guid × JobState)

/-- Association-list lookup of a job by guid. -/
def svc_find (svc : BitsServiceState) (guid : Guid) : Option JobState :=
  match svc with
  | [] => none
  | (g, j) :: rest => if g = guid then some j else svc_find rest guid

/-- Replace (or add) the job stored under `guid`. -/
def svc_update (svc : BitsServiceState) (guid : Guid) (j : JobState) :
    BitsServiceState :=
  match svc with
  | [] => [(guid, j)]
  | (g, j0) :: rest =>
    if g = guid then (g, j) :: rest else (g, j0) :: svc_update rest guid j

/-- `BackgroundCopyManager::find_job_by_guid_and_name` as the in-process
client uses it: the job under `guid`, provided its name matches. -/
def find_job_by_guid_and_name (svc : BitsServiceState) (guid : Guid)
    (name : String) : Option JobState :=
  match svc_find svc guid with
  | none => none
  | some j => if j.name = name then some j else none

/-- `bits_protocol::SetUpdateIntervalFailure` (src/bits_protocol.rs). -/
inductive SetUpdateIntervalFailure
  | ArgumentValidation (msg : String)
  | NotFound
  | GetJob (hr : HRESULT)
  | ApplySettings (hr : HRESULT)
  | OtherBITS (hr : HRESULT)
  | Other (msg : String)
deriving DecidableEq, Repr

/-- `bits_protocol::CompleteJobFailure` (src/bits_protocol.rs). -/
inductive CompleteJobFailure
  | NotFound
  | GetJob (hr : HRESULT)
  | CompleteJob (hr : HRESULT)
  | PartialComplete
  | OtherBITS (hr : HRESULT)
  | Other (msg : String)
deriving DecidableEq, Repr

/-- `bits_protocol::CancelJobFailure` (src/bits_protocol.rs). -/
inductive CancelJobFailure
  | NotFound
  | GetJob (hr : HRESULT)
  | CancelJob (hr : HRESULT)
  | OtherBITS (hr : HRESULT)
  | Other (msg : String)
deriving DecidableEq, Repr

/-- Modelled from the spec: `SuspendJobFailure` — the suspend operation's
failure kinds "not-found, get-job, suspend, service, other" (§4.4).  Its
declaration is not under src/; src/src/in_process/mod.rs `suspend_job` uses
the variants `NotFound`, `GetJob`, `SuspendJob` and `Other`, and the service
kind is `OtherBITS` as in the sibling enums. -/
inductive SuspendJobFailure
  | NotFound
  | GetJob (error : HResultMessage)
  | SuspendJob (error : HResultMessage)
  | OtherBITS (error : HResultMessage)
  | Other (msg : String)
deriving DecidableEq, Repr

/-- `InProcessMonitorVars` (src/src/in_process/mod.rs): the mutex-guarded
monitor state shared with the notification callbacks. -/
structure InProcessMonitorVars where
  interval_millis : Nat
  notified : Bool
  shutdown : Bool
deriving DecidableEq, Repr

/-- `InProcessClient` (src/src/in_process/mod.rs): job name, save-path root,
and the monitor-control map.  Each map entry models the `Weak` control handle:
`some vars` upgrades to the shared monitor state, `none` is dangling. -/
structure InProcessClient where
  job_name : String
  save_path_base : String
  monitors : List (Guid × Option InProcessMonitorVars)
deriving DecidableEq, Repr

/-- Lookup of a monitor-control entry by guid. -/
def monitors_find (ms : List (Guid × Option InProcessMonitorVars))
    (guid : Guid) : Option (Option InProcessMonitorVars) :=
  match ms with
  | [] => none
  | (g, slot) :: rest => if g = guid then some slot else monitors_find rest guid

/-- Replace (or add) the monitor-control entry under `guid`. -/
def monitors_set (ms : List (Guid × Option InProcessMonitorVars))
    (guid : Guid) (slot : Option InProcessMonitorVars) :
    List (Guid × Option InProcessMonitorVars) :=
  match ms with
  | [] => [(guid, slot)]
  | (g, s0) :: rest =>
    if g = guid then (g, slot) :: rest else (g, s0) :: monitors_set rest guid slot

/-- Remove the monitor-control entry under `guid`. -/
def monitors_remove (ms : List (Guid × Option InProcessMonitorVars))
    (guid : Guid) : List (Guid × Option InProcessMonitorVars) :=
  match ms with
  | [] => []
  | (g, s0) :: rest =>
    if g = guid then rest else (g, s0) :: monitors_remove rest guid

/-- The BITS job calls `InProcessClient::start_job`
(src/src/in_process/mod.rs, lines 66-110) makes on its success path, in
source order: proxy usage, a 60-second minimum retry delay, redirect
reporting, an unconditional foreground priority, the monitor's callback
registration, the file to transfer, and the initial resume. -/
def start_job_actions (proxy_usage : BitsProxyUsage) (url full_path : String) :
    List JobAction :=
  [JobAction.setProxyUsage proxy_usage,
   JobAction.setMinimumRetryDelay 60,
   JobAction.setRedirectReport,
   JobAction.setPriority BitsJobPriority.Foreground,
   JobAction.registerCallbacks,
   JobAction.addFile url full_path,
   JobAction.resume]

/-- `InProcessClient::start_job` success path: create the job (a fresh
service-side job starts suspended with normal priority), run the
`start_job_actions` against it, and record the new monitor's control handle.
Returns the new client state, service state, and the job calls made. -/
def InProcessClient.start_job (st : InProcessClient) (svc : BitsServiceState)
    (guid : Guid) (url save_path : String) (proxy_usage : BitsProxyUsage)
    (monitor_interval_millis : Nat) :
    InProcessClient × BitsServiceState × List JobAction :=
  let full_path := st.save_path_base ++ save_path
  let actions := start_job_actions proxy_usage url full_path
  let created : JobState :=
    { name := st.job_name, priority := BitsJobPriority.Normal, files := [],
      lifecycle := JobLifecycle.Suspended }
  let vars : InProcessMonitorVars :=
    { interval_millis := monitor_interval_millis, notified := false,
      shutdown := false }
  ({ st with monitors := monitors_set st.monitors guid (some vars) },
   svc_update svc guid (JobState.apply_all created actions),
   actions)

/-- `InProcessClient::stop_update` (src/src/in_process/mod.rs, lines
206-216): if the control handle for `guid` upgrades, set the shared shutdown
flag and notify; a dangling handle is removed and reported `NotFound`; no
BITS job call is made on any path (the empty action list). -/
def InProcessClient.stop_update (st : InProcessClient) (guid : Guid) :
    Except SetUpdateIntervalFailure Unit × InProcessClient × List JobAction :=
  match monitors_find st.monitors guid with
  | some (some vars) =>
    (Except.ok (),
     { st with monitors :=
        monitors_set st.monitors guid (some { vars with shutdown := true }) },
     [])
  | some none =>
    (Except.error SetUpdateIntervalFailure.NotFound,
     { st with monitors := monitors_remove st.monitors guid }, [])
  | none => (Except.error SetUpdateIntervalFailure.NotFound, st, [])

/-- `InProcessClient::complete_job` success/not-found paths: complete the job
and stop its monitor; the only job call is `Complete()`. -/
def InProcessClient.complete_job (st : InProcessClient)
    (svc : BitsServiceState) (guid : Guid) :
    Except CompleteJobFailure Unit × InProcessClient × BitsServiceState ×
      List JobAction :=
  match find_job_by_guid_and_name svc guid st.job_name with
  | none => (Except.error CompleteJobFailure.NotFound, st, svc, [])
  | some j =>
    let r := InProcessClient.stop_update st guid
    (Except.ok (), r.2.1,
     svc_update svc guid (JobState.apply j JobAction.complete),
     [JobAction.complete])

/-- `InProcessClient::cancel_job` success/not-found paths: cancel the job and
stop its monitor; the only job call is `Cancel()`. -/
def InProcessClient.cancel_job (st : InProcessClient)
    (svc : BitsServiceState) (guid : Guid) :
    Except CancelJobFailure Unit × InProcessClient × BitsServiceState ×
      List JobAction :=
  match find_job_by_guid_and_name svc guid st.job_name with
  | none => (Except.error CancelJobFailure.NotFound, st, svc, [])
  | some j =>
    let r := InProcessClient.stop_update st guid
    (Except.ok (), r.2.1,
     svc_update svc guid (JobState.apply j JobAction.cancel),
     [JobAction.cancel])

/-- `InProcessClient::suspend_job` (src/src/in_process/mod.rs, lines
132-141): connect, look the job up by guid and name, and suspend it; each
service-call failure is mapped to its `SuspendJobFailure` kind.  The three
oracle arguments give the outcomes of the connect, lookup, and suspend
service calls. -/
def InProcessClient.suspend_job (st : InProcessClient)
    (svc : BitsServiceState) (guid : Guid) (connect_err : Option String)
    (find_err : Option HResultMessage) (suspend_err : Option HResultMessage) :
    Except SuspendJobFailure BitsServiceState :=
  match connect_err with
  | some msg => Except.error (SuspendJobFailure.Other msg)
  | none =>
    match find_err with
    | some e => Except.error (SuspendJobFailure.GetJob e)
    | none =>
      match find_job_by_guid_and_name svc guid st.job_name with
      | none => Except.error SuspendJobFailure.NotFound
      | some j =>
        match suspend_err with
        | some e => Except.error (SuspendJobFailure.SuspendJob e)
        | none =>
          Except.ok (svc_update svc guid (JobState.apply j JobAction.suspend))

/-- `InProcessMonitor` has no `Drop` implementation in
src/src/in_process/mod.rs: destroying a monitor makes no BITS job call. -/
def monitor_drop_actions : List JobAction := []

/-- Whether a job call restores scheduling priority to normal. -/
def is_priority_restore : JobAction → Bool
  | JobAction.setPriority BitsJobPriority.Normal => true
  | _ => false

/-- How many of the calls in `tr` restore priority to normal. -/
def restore_count (tr : List JobAction) : Nat :=
  (tr.filter is_priority_restore).length

/-- Whether a job call raises scheduling priority to foreground. -/
def is_priority_raise : JobAction → Bool
  | JobAction.setPriority BitsJobPriority.Foreground => true
  | _ => false

/-- `FILETIME` (filetime_win::FileTime), abstracted to its 64-bit value. -/
abbrev FileTime := Nat

/-- `bits::BitsJobProgress` (bits/src/status.rs). -/
structure BitsJobProgress where
  total_bytes : Option Nat
  transferred_bytes : Nat
  total_files : Nat
  transferred_files : Nat
deriving DecidableEq, Repr

/-- `bits::BitsJobTimes` (bits/src/status.rs). -/
structure BitsJobTimes where
  creation : FileTime
  modification : FileTime
  transfer_completion : Option FileTime
deriving DecidableEq, Repr

/-- `bits::BitsJobError` as `InProcessMonitor::get_status` consumes it:
a raw error-context code, its description, the raw `HRESULT`, and its
description. -/
structure BitsJobError where
  context : Nat
  context_str : String
  error : HRESULT
  error_str : String
deriving DecidableEq, Repr

/-- `bits::BitsJobStatus` as `InProcessMonitor::get_status` consumes it
(state is the raw `BG_JOB_STATE` code). -/
structure BitsJobStatus where
  state : Nat
  progress : BitsJobProgress
  error_count : Nat
  error : Option BitsJobError
  times : BitsJobTimes
deriving DecidableEq, Repr

/-- `bits::BitsJobState` (bits/src/status.rs). -/
inductive BitsJobState
  | Queued
  | Connecting
  | Transferring
  | Suspended
  | Error
  | TransientError
  | Transferred
  | Acknowledged
  | Cancelled
  | Other (state : Nat)
deriving DecidableEq, Repr

/-- `From<BG_JOB_STATE> for BitsJobState` (bits/src/status.rs): the raw
`BG_JOB_STATE` codes 0-8 in declaration order, anything else `Other`. -/
def BitsJobState.from_raw (s : Nat) : BitsJobState :=
  if s = 0 then BitsJobState.Queued
  else if s = 1 then BitsJobState.Connecting
  else if s = 2 then BitsJobState.Transferring
  else if s = 3 then BitsJobState.Suspended
  else if s = 4 then BitsJobState.Error
  else if s = 5 then BitsJobState.TransientError
  else if s = 6 then BitsJobState.Transferred
  else if s = 7 then BitsJobState.Acknowledged
  else if s = 8 then BitsJobState.Cancelled
  else BitsJobState.Other s

/-- `bits::BitsErrorContext` (bits/src/status.rs). -/
inductive BitsErrorContext
  | NoContext
  | Unknown
  | GeneralQueueManager
  | QueueManagerNotification
  | LocalFile
  | RemoteFile
  | GeneralTransport
  | RemoteApplication
  | Other (context : Nat)
deriving DecidableEq, Repr

/-- `From<BG_ERROR_CONTEXT> for BitsErrorContext` (bits/src/status.rs): raw
codes 0-7 in declaration order (`None` is rendered `NoContext` here),
anything else `Other`. -/
def BitsErrorContext.from_raw (c : Nat) : BitsErrorContext :=
  if c = 0 then BitsErrorContext.NoContext
  else if c = 1 then BitsErrorContext.Unknown
  else if c = 2 then BitsErrorContext.GeneralQueueManager
  else if c = 3 then BitsErrorContext.QueueManagerNotification
  else if c = 4 then BitsErrorContext.LocalFile
  else if c = 5 then BitsErrorContext.RemoteFile
  else if c = 6 then BitsErrorContext.GeneralTransport
  else if c = 7 then BitsErrorContext.RemoteApplication
  else BitsErrorContext.Other c

/-- Modelled from the spec: `JobError`, the per-job error detail inside a
status snapshot.  Its declaration is not under src/; its construction in
`InProcessMonitor::get_status` fills `context`, `context_str` and `error`. -/
structure JobError where
  context : BitsErrorContext
  context_str : String
  error : HResultMessage
deriving DecidableEq, Repr

/-- Modelled from the spec: `JobStatus`, the status snapshot the monitor
returns — state, progress counters, error detail, timestamps, enriched with
the job's current source URL (§4.5 step 5).  Its declaration is not under
src/; its construction in `InProcessMonitor::get_status` fills exactly these
fields. -/
structure JobStatus where
  state : BitsJobState
  progress : BitsJobProgress
  error_count : Nat
  error : Option JobError
  times : BitsJobTimes
  url : Option String
deriving DecidableEq, Repr

/-- Modelled from the spec: the client `Error` type of the in-process client
(§7 transport taxonomy).  Its declaration is not under src/;
`InProcessMonitor::get_status` uses the `NotConnected` and `Timeout`
variants, and any other error that flows through is `OtherErr`. -/
inductive BitsClientError
  | NotConnected
  | Timeout
  | OtherErr (msg : String)
deriving DecidableEq, Repr

/-- InProcessMonitor's own (non-shared) fields `last_status_time` and
`last_url` (src/src/in_process/mod.rs).  Instants are modelled as
milliseconds on a global clock. -/
structure MonitorLocal where
  last_status_time : Option Nat
  last_url : Option String
deriving DecidableEq, Repr

/-- One pass through `InProcessMonitor::get_status`'s wait loop observes the
shared vars under the lock together with the current time: the first
observation is at the call itself, each later one follows a condition
variable wakeup (notification, timeout, or spurious). -/
structure MonitorObs where
  vars : InProcessMonitorVars
  now : Nat
deriving DecidableEq, Repr

/-- What one pass of the wait loop decides. -/
inductive GetStatusStep
  | failNotConnected
  | failTimeout
  | fetchNow
  | waitUntil (wake : Nat)
deriving DecidableEq, Repr

/-- `wait_until` of `InProcessMonitor::get_status`:
`min(last_status_time + interval, started + timeout)`, absent on the first
report. -/
def wait_until_time (last_status_time : Option Nat)
    (interval started timeout : Nat) : Option Nat :=
  last_status_time.map fun t => min (t + interval) (started + timeout)

/-- One pass of `InProcessMonitor::get_status`'s loop (src/src/in_process/
mod.rs, lines 330-362): shutdown fails `NotConnected`; an elapsed time
strictly over the timeout fails `Timeout`; otherwise fetch immediately when
notified, on the first report, or when `wait_until` is already past, and
otherwise wait until `wait_until`. -/
def get_status_step (started timeout : Nat) (last_status_time : Option Nat)
    (s : InProcessMonitorVars) (now : Nat) : GetStatusStep :=
  if s.shutdown then GetStatusStep.failNotConnected
  else if started + timeout < now then GetStatusStep.failTimeout
  else
    match wait_until_time last_status_time s.interval_millis started timeout with
    | none => GetStatusStep.fetchNow
    | some w =>
      if s.notified then GetStatusStep.fetchNow
      else if w < now then GetStatusStep.fetchNow
      else GetStatusStep.waitUntil w

/-- How the wait loop exits; on a fetch exit the loop has already reset the
notified flag (`s.notified = false` before `break Ok(())`). -/
inductive LoopExit
  | errNotConnected (vars : InProcessMonitorVars)
  | errTimeout (vars : InProcessMonitorVars)
  | fetchFrom (vars : InProcessMonitorVars)
deriving DecidableEq, Repr

/-- The wait loop over a trace of lock-observations: each pass re-checks
shutdown, elapsed time, and the fetch condition on the freshly observed
shared state; a `waitUntil` decision sleeps on the condition variable and
continues with the next observation.  `none` means the trace ended while the
loop was still waiting. -/
def get_status_loop (started timeout : Nat) (last_status_time : Option Nat) :
    List MonitorObs → Option LoopExit
  | [] => none
  | o :: rest =>
    match get_status_step started timeout last_status_time o.vars o.now with
    | GetStatusStep.failNotConnected => some (LoopExit.errNotConnected o.vars)
    | GetStatusStep.failTimeout => some (LoopExit.errTimeout o.vars)
    | GetStatusStep.fetchNow =>
      some (LoopExit.fetchFrom { o.vars with notified := false })
    | GetStatusStep.waitUntil _ =>
      get_status_loop started timeout last_status_time rest

/-- Oracle for the fetch phase of `get_status`: `self.job()` failed,
`job.get_status()` failed (mapped to `NotConnected`), the URL lookup failed,
or everything succeeded with the given raw status and current remote URL. -/
inductive FetchOutcome
  | jobErr (e : BitsClientError)
  | statusErr
  | urlErr (e : BitsClientError)
  | ok (status : BitsJobStatus) (url : String)
deriving DecidableEq, Repr

/-- The full observable result of one `get_status` call: the returned value,
the shared vars after the call's own writes (reset of `notified` on a fetch
exit, the shutdown transition of the `or_else` on any error except the early
`NotConnected` return), whether the fetch phase was entered at all, and the
monitor's own fields afterwards. -/
structure GetStatusRun where
  result : Except BitsClientError JobStatus
  vars : InProcessMonitorVars
  fetch_attempted : Bool
  monitor : MonitorLocal
deriving Repr

/-- `InProcessMonitor::get_status` (src/src/in_process/mod.rs, lines
323-400) over an observation trace: run the wait loop; on a fetch exit
record the new `last_status_time` (`fetch_time`), get the job, status and
URL, report the URL only when it differs from the last reported one, and on
any error after the loop set the shutdown flag. -/
def InProcessMonitor.get_status (started timeout : Nat) (m : MonitorLocal)
    (trace : List MonitorObs) (fetch_time : Nat) (fetch : FetchOutcome) :
    Option GetStatusRun :=
  match get_status_loop started timeout m.last_status_time trace with
  | none => none
  | some (LoopExit.errNotConnected v) =>
    some { result := Except.error BitsClientError.NotConnected, vars := v,
           fetch_attempted := false, monitor := m }
  | some (LoopExit.errTimeout v) =>
    some { result := Except.error BitsClientError.Timeout,
           vars := { v with shutdown := true },
           fetch_attempted := false, monitor := m }
  | some (LoopExit.fetchFrom v) =>
    let m1 : MonitorLocal := { m with last_status_time := some fetch_time }
    match fetch with
    | FetchOutcome.jobErr e =>
      some { result := Except.error e, vars := { v with shutdown := true },
             fetch_attempted := true, monitor := m1 }
    | FetchOutcome.statusErr =>
      some { result := Except.error BitsClientError.NotConnected,
             vars := { v with shutdown := true },
             fetch_attempted := true, monitor := m1 }
    | FetchOutcome.urlErr e =>
      some { result := Except.error e, vars := { v with shutdown := true },
             fetch_attempted := true, monitor := m1 }
    | FetchOutcome.ok status url =>
      some { result := Except.ok
               { state := BitsJobState.from_raw status.state,
                 progress := status.progress,
                 error_count := status.error_count,
                 error := status.error.map fun e =>
                   { context := BitsErrorContext.from_raw e.context,
                     context_str := e.context_str,
                     error := { hr := e.error, message := e.error_str } },
                 times := status.times,
                 url := if m.last_url = some url then none else some url },
             vars := v,
             fetch_attempted := true,
             monitor := { m1 with last_url :=
               if m.last_url = some url then m.last_url else some url } }

/-- Concrete client used in the concrete evaluations below. -/
def sample_client : InProcessClient :=
  { job_name := "JOBBO", save_path_base := "C:", monitors := [] }

/-- Concrete guid used in the concrete evaluations below. -/
def g0 : Guid := { id := 0 }

/-- Concrete service-side job used in the concrete evaluations below. -/
def sample_job : JobState :=
  { name := "JOBBO", priority := BitsJobPriority.Normal, files := [],
    lifecycle := JobLifecycle.Queued }

/-- Concrete raw job status used in the concrete evaluations below. -/
def sample_status : BitsJobStatus :=
  { state := 2,
    progress := { total_bytes := some 100, transferred_bytes := 10,
                  total_files := 1, transferred_files := 0 },
    error_count := 0, error := none,
    times := { creation := 0, modification := 0, transfer_completion := none } }

/-- The snapshot `get_status` builds from `sample_status` on a first report
with URL "u". -/
def sample_js : JobStatus :=
  { state := BitsJobState.Transferring,
    progress := { total_bytes := some 100, transferred_bytes := 10,
                  total_files := 1, transferred_files := 0 },
    error_count := 0, error := none,
    times := { creation := 0, modification := 0, transfer_completion := none },
    url := some "u" }

/-- The full `get_status` run on that first report. -/
def sample_run : GetStatusRun :=
  { result := Except.ok sample_js,
    vars := { interval_millis := 1000, notified := false, shutdown := false },
    fetch_attempted := true,
    monitor := { last_status_time := some 5, last_url := some "u" } }

/-- An adapter registered with none of the three optional handlers. -/
def no_handlers : BackgroundCopyCallback :=
  { transferred_cb := none, error_cb := none, modification_cb := none }

theorem CommandTag.all_complete (t : CommandTag) : t ∈ CommandTag.all := by
  cases t <;> simp [CommandTag.all]

theorem run_commands_dispatch_eq_tag (c : Command) :
    run_commands_dispatch c = dispatch_tag (Command.tag c) := rfl

theorem get_status_loop_fetch_notified_false (started timeout : Nat)
    (last : Option Nat) (trace : List MonitorObs) (v : InProcessMonitorVars)
    (h : get_status_loop started timeout last trace =
      some (LoopExit.fetchFrom v)) :
    v.notified = false := by
  induction trace with
  | nil => simp [get_status_loop] at h
  | cons o rest ih =>
    rw [get_status_loop] at h
    rcases hs : get_status_step started timeout last o.vars o.now with _ | _ | _ | w <;>
      rw [hs] at h
    · simp at h
    · simp at h
    · rw [Option.some.injEq] at h
      injection h with h2
      subst h2
      rfl
    · exact ih h

/-- Claim C1, counterexample: the suspend operation is not among the images
of the worker loop's dispatch — with `CommandTag.all_complete` and
`run_commands_dispatch_eq_tag`, no protocol `Command` value encodes a
suspend request that the worker loop would dispatch. -/
theorem C1_counterexample :
    (CommandTag.all.map dispatch_tag).contains CommandOp.suspend = false := by
  decide

/-- Claim C1 (amended): the protocol's closed command set consists of exactly
the seven kinds start, monitor, resume, set-priority, set-update-interval,
complete and cancel — no `Command` value dispatches to a suspend operation;
the suspend operation exists only on the in-process client, keyed by job id,
with failure kinds not-found, get-job, suspend, service and other. -/
theorem C1_no_suspend_in_command_set (c : Command) (f : SuspendJobFailure)
    (st : InProcessClient) (svc : BitsServiceState) (g : Guid) (j : JobState) :
    run_commands_dispatch c ≠ CommandOp.suspend
    ∧ run_commands_dispatch c ∈
        [CommandOp.start, CommandOp.monitor, CommandOp.resume,
         CommandOp.setPriority, CommandOp.setUpdateInterval,
         CommandOp.complete, CommandOp.cancel]
    ∧ (f = SuspendJobFailure.NotFound
        ∨ (∃ e, f = SuspendJobFailure.GetJob e)
        ∨ (∃ e, f = SuspendJobFailure.SuspendJob e)
        ∨ (∃ e, f = SuspendJobFailure.OtherBITS e)
        ∨ (∃ msg, f = SuspendJobFailure.Other msg))
    ∧ (find_job_by_guid_and_name svc g st.job_name = none →
        InProcessClient.suspend_job st svc g none none none =
          Except.error SuspendJobFailure.NotFound)
    ∧ (find_job_by_guid_and_name svc g st.job_name = some j →
        InProcessClient.suspend_job st svc g none none none =
          Except.ok (svc_update svc g (JobState.apply j JobAction.suspend))) := by
  refine ⟨?_, ?_, ?_, ?_, ?_⟩
  · cases c <;> simp [run_commands_dispatch, Command.tag, dispatch_tag]
  · cases c <;> simp [run_commands_dispatch, Command.tag, dispatch_tag]
  · cases f
    · exact Or.inl rfl
    · exact Or.inr (Or.inl ⟨_, rfl⟩)
    · exact Or.inr (Or.inr (Or.inl ⟨_, rfl⟩))
    · exact Or.inr (Or.inr (Or.inr (Or.inl ⟨_, rfl⟩)))
    · exact Or.inr (Or.inr (Or.inr (Or.inr ⟨_, rfl⟩)))
  · intro h
    simp [InProcessClient.suspend_job, h]
  · intro h
    simp [InProcessClient.suspend_job, h]

/-- Claim C1, witness: `suspend_job` at concrete inputs for both hypotheses
of the amended theorem (job absent, job present). -/
theorem C1_witness :
    InProcessClient.suspend_job sample_client [] g0 none none none =
      Except.error SuspendJobFailure.NotFound
    ∧ InProcessClient.suspend_job sample_client [(g0, sample_job)] g0
        none none none =
      Except.ok (svc_update [(g0, sample_job)] g0
        (JobState.apply sample_job JobAction.suspend)) :=
  ⟨(C1_no_suspend_in_command_set (Command.CancelJob { guid := g0 })
      SuspendJobFailure.NotFound sample_client [] g0 sample_job).2.2.2.1 rfl,
   (C1_no_suspend_in_command_set (Command.CancelJob { guid := g0 })
      SuspendJobFailure.NotFound sample_client [(g0, sample_job)] g0
      sample_job).2.2.2.2 rfl⟩

/-- Claim C2, counterexample: a complete monitored-job lifecycle — start_job
(which raises priority to foreground) followed by the explicit stop_update
termination path — makes zero priority-restoring job calls instead of
exactly one, and leaves the service-side job at foreground priority. -/
theorem C2_counterexample :
    restore_count
        ((InProcessClient.start_job sample_client [] g0 "http" "f"
            BitsProxyUsage.Preconfig 1000).2.2 ++
          (InProcessClient.stop_update
            (InProcessClient.start_job sample_client [] g0 "http" "f"
              BitsProxyUsage.Preconfig 1000).1 g0).2.2) = 0
    ∧ (svc_find
        (InProcessClient.start_job sample_client [] g0 "http" "f"
          BitsProxyUsage.Preconfig 1000).2.1 g0).map JobState.priority =
      some BitsJobPriority.Foreground := ⟨rfl, rfl⟩

/-- Claim C2 (amended): start_job raises the job's scheduling priority to
foreground exactly once when monitoring begins; but no termination path
restores it to normal — the explicit stop (stop_update), complete, cancel
and monitor-destruction paths all make zero priority-restoring job calls. -/
theorem C2_priority_never_restored (st : InProcessClient)
    (svc : BitsServiceState) (g : Guid) (url save_path : String)
    (pu : BitsProxyUsage) (interval : Nat) :
    ((InProcessClient.start_job st svc g url save_path pu interval).2.2.filter
        is_priority_raise).length = 1
    ∧ restore_count
        (InProcessClient.start_job st svc g url save_path pu interval).2.2 = 0
    ∧ restore_count (InProcessClient.stop_update st g).2.2 = 0
    ∧ restore_count (InProcessClient.complete_job st svc g).2.2.2 = 0
    ∧ restore_count (InProcessClient.cancel_job st svc g).2.2.2 = 0
    ∧ restore_count monitor_drop_actions = 0 := by
  refine ⟨rfl, rfl, ?_, ?_, ?_, rfl⟩
  · rcases h : monitors_find st.monitors g with _ | s
    · simp [InProcessClient.stop_update, h, restore_count]
    · cases s <;> simp [InProcessClient.stop_update, h, restore_count]
  · rcases h : find_job_by_guid_and_name svc g st.job_name with _ | j <;>
      simp [InProcessClient.complete_job, h, restore_count, is_priority_restore]
  · rcases h : find_job_by_guid_and_name svc g st.job_name with _ | j <;>
      simp [InProcessClient.cancel_job, h, restore_count, is_priority_restore]

/-- Claim C4: any read or write error on the pipe server endpoint — a
timed-out read, an OS error, and a completed-but-short write alike — moves
it to Disconnected; a read whose wait times out returns the timeout error,
every subsequent read or write on the disconnected endpoint returns
`NotConnected` and leaves it disconnected, and only a successful `connect`
makes it connected again.  The two universally quantified conjuncts settle
the "any error" reading: whatever error `read_pipe_impl` or
`write_pipe_impl` produces is returned and disconnects the endpoint. -/
theorem C4_pipe_server_error_disconnects (n : String) (e : comedy.Error)
    (o : PipeIoOutcome) (len bt : Nat) :
    PipeServer.read { name := n, ovl := some () } PipeIoOutcome.timedOut =
      (Except.error PipeError.Timeout, { name := n, ovl := none })
    ∧ PipeServer.read { name := n, ovl := some () } (PipeIoOutcome.osError e) =
      (Except.error (PipeError.Api e), { name := n, ovl := none })
    ∧ PipeServer.write { name := n, ovl := some () } len PipeIoOutcome.timedOut =
      (Except.error PipeError.Timeout, { name := n, ovl := none })
    ∧ PipeServer.write { name := n, ovl := some () } len (PipeIoOutcome.osError e) =
      (Except.error (PipeError.Api e), { name := n, ovl := none })
    ∧ PipeServer.read { name := n, ovl := none } o =
      (Except.error PipeError.NotConnected, { name := n, ovl := none })
    ∧ PipeServer.write { name := n, ovl := none } len o =
      (Except.error PipeError.NotConnected, { name := n, ovl := none })
    ∧ PipeServer.connect { name := n, ovl := none } (PipeIoOutcome.completed bt) =
      (Except.ok (), { name := n, ovl := some () })
    ∧ PipeServer.is_connected { name := n, ovl := none } = false
    ∧ (bt ≠ len →
        PipeServer.write { name := n, ovl := some () } len
            (PipeIoOutcome.completed bt) =
          (Except.error (PipeError.WriteCount len bt),
            { name := n, ovl := none }))
    ∧ (∀ err, read_pipe_impl o = Except.error err →
        PipeServer.read { name := n, ovl := some () } o =
          (Except.error err, { name := n, ovl := none }))
    ∧ (∀ err, write_pipe_impl len o = Except.error err →
        PipeServer.write { name := n, ovl := some () } len o =
          (Except.error err, { name := n, ovl := none })) := by
  refine ⟨rfl, rfl, rfl, rfl, rfl, rfl, rfl, rfl, ?_, ?_, ?_⟩
  · intro h
    simp [PipeServer.write, write_pipe_impl, h]
  · intro err h
    simp [PipeServer.read, h]
  · intro err h
    simp [PipeServer.write, h]

/-- Claim C4, witness: on a connected endpoint, a concrete short write
(2 of 3 bytes accepted), a timed-out read, and a timed-out write each return
their error and leave the endpoint disconnected. -/
theorem C4_witness :
    PipeServer.write { name := "p", ovl := some () } 3
        (PipeIoOutcome.completed 2) =
      (Except.error (PipeError.WriteCount 3 2), { name := "p", ovl := none })
    ∧ PipeServer.read { name := "p", ovl := some () } PipeIoOutcome.timedOut =
      (Except.error PipeError.Timeout, { name := "p", ovl := none })
    ∧ PipeServer.write { name := "p", ovl := some () } 3
        PipeIoOutcome.timedOut =
      (Except.error PipeError.Timeout, { name := "p", ovl := none }) :=
  ⟨(C4_pipe_server_error_disconnects "p" ⟨none, none, none⟩
      (PipeIoOutcome.completed 2) 3 2).2.2.2.2.2.2.2.2.1 (by decide),
   (C4_pipe_server_error_disconnects "p" ⟨none, none, none⟩
      PipeIoOutcome.timedOut 3 2).2.2.2.2.2.2.2.2.2.1 PipeError.Timeout rfl,
   (C4_pipe_server_error_disconnects "p" ⟨none, none, none⟩
      PipeIoOutcome.timedOut 3 2).2.2.2.2.2.2.2.2.2.2 PipeError.Timeout rfl⟩

/-- Claim C5: each handshake side sends one version byte (value 0) and
checks the peer's byte; the worker proceeds to command dispatch and the
client accepts the connection exactly when the received byte list is the
single expected version byte, and a 0-versus-1 mismatch is fatal on both
sides while 0-versus-0 proceeds. -/
theorem C5_handshake_exact_version (received reply : List Nat) :
    client_version_send = [0]
    ∧ ((∃ sent, run_commands_handshake received = Except.ok sent) ↔
        received = [PROTOCOL_VERSION])
    ∧ (run_commands_handshake received = Except.ok [PROTOCOL_VERSION] ↔
        received = [PROTOCOL_VERSION])
    ∧ (connect_version_check reply = Except.ok () ↔
        reply = [PROTOCOL_VERSION])
    ∧ run_commands_handshake [1] = Except.error "protocol version mismatch"
    ∧ connect_version_check [1] = Except.error "protocol version mismatch"
    ∧ run_commands_handshake client_version_send = Except.ok [PROTOCOL_VERSION]
    ∧ connect_version_check [PROTOCOL_VERSION] = Except.ok () := by
  refine ⟨rfl, ?_, ?_, ?_, rfl, rfl, rfl, rfl⟩
  · match received with
    | [] => simp [run_commands_handshake]
    | [a] =>
      by_cases ha : a = 0 <;>
        simp [run_commands_handshake, PROTOCOL_VERSION, ha]
    | a :: b :: t => simp [run_commands_handshake]
  · match received with
    | [] => simp [run_commands_handshake]
    | [a] =>
      by_cases ha : a = 0 <;>
        simp [run_commands_handshake, PROTOCOL_VERSION, ha]
    | a :: b :: t => simp [run_commands_handshake]
  · match reply with
    | [] => simp [connect_version_check]
    | [a] =>
      by_cases ha : a = 0 <;>
        simp [connect_version_check, PROTOCOL_VERSION, ha]
    | a :: b :: t => simp [connect_version_check]

/-- Claim C6, counterexample: an unfinished Pending dropped while the
`CancelIoEx` request itself fails is released without any blocking wait for
a cancellation acknowledgment. -/
theorem C6_counterexample :
    (OverlappedPending.drop { ovl := some () } false).contains
      DropStep.waitForCancelAck = false := by
  decide

/-- Claim C6 (amended): dropping a Pending that never finished always
requests cancellation synchronously first; when the cancellation request
succeeds, the drop blocks waiting for the cancellation acknowledgment before
returning, while a failed cancellation request returns without waiting; a
finished Pending's drop does nothing. -/
theorem C6_drop_cancels_then_waits (p : OverlappedPending) (c : Bool) :
    (p.ovl = some () →
      (OverlappedPending.drop p c).head? = some DropStep.cancelIoEx)
    ∧ OverlappedPending.drop { ovl := some () } true =
      [DropStep.cancelIoEx, DropStep.waitForCancelAck]
    ∧ OverlappedPending.drop { ovl := none } c = [] := by
  refine ⟨?_, rfl, rfl⟩
  intro h
  obtain ⟨ovl⟩ := p
  subst h
  cases c <;> rfl

/-- Claim C6, witness: the first step of dropping a concrete unfinished
Pending is the cancellation request. -/
theorem C6_witness :
    (OverlappedPending.drop { ovl := some () } false).head? =
      some DropStep.cancelIoEx :=
  (C6_drop_cancels_then_waits { ovl := some () } false).1 rfl

/-- Claim C7: a write that completes with no OS error and no timeout but
accepts fewer bytes than the buffer length fails with the short-write error
`WriteCount` carrying the expected and actual counts — a variant distinct
from `Timeout` — and a write succeeds exactly when the entire buffer was
accepted in a single completed operation. -/
theorem C7_short_write_is_distinct_error (len bt : Nat) (o : PipeIoOutcome) :
    (bt ≠ len →
      write_pipe_impl len (PipeIoOutcome.completed bt) =
        Except.error (PipeError.WriteCount len bt))
    ∧ (write_pipe_impl len (PipeIoOutcome.completed bt) = Except.ok () ↔
        bt = len)
    ∧ (write_pipe_impl len o = Except.ok () ↔ o = PipeIoOutcome.completed len)
    ∧ PipeError.WriteCount len bt ≠ PipeError.Timeout
    ∧ write_pipe_impl len PipeIoOutcome.timedOut =
      Except.error PipeError.Timeout := by
  refine ⟨?_, ?_, ?_, ?_, rfl⟩
  · intro h
    simp [write_pipe_impl, h]
  · by_cases h : bt = len <;> simp [write_pipe_impl, h]
  · cases o with
    | timedOut => simp [write_pipe_impl]
    | osError e => simp [write_pipe_impl]
    | completed b => by_cases h : b = len <;> simp [write_pipe_impl, h]
  · simp

/-- Claim C7, witness: a concrete short write (3 of 10 bytes accepted). -/
theorem C7_witness :
    write_pipe_impl 10 (PipeIoOutcome.completed 3) =
      Except.error (PipeError.WriteCount 10 3)
    ∧ PipeError.WriteCount 10 3 ≠ PipeError.Timeout :=
  ⟨(C7_short_write_is_distinct_error 10 3 PipeIoOutcome.timedOut).1 (by decide),
   (C7_short_write_is_distinct_error 10 3 PipeIoOutcome.timedOut).2.2.2.1⟩

/-- Claim C9: `WaitTimeout::from_millis(m)` fails exactly when `m` is the OS
INFINITE sentinel `0xFFFF_FFFF`, yields the finite `m`-millisecond timeout
for every other `u32` value, and never yields the infinite timeout (only the
separate `infinite()` constructor does); hence the monitor client's
`get_status`, which unwraps `from_millis` on its caller-supplied millisecond
argument, panics exactly on `0xFFFF_FFFF` (its read timeout is `none`). -/
theorem C9_from_millis_rejects_infinite (m : Nat) (h : m < 2 ^ 32) :
    (WaitTimeout.from_millis m = Except.error () ↔ m = INFINITE)
    ∧ (m ≠ INFINITE →
        WaitTimeout.from_millis m = Except.ok (WaitTimeout.Milliseconds m))
    ∧ (∀ t, WaitTimeout.from_millis m = Except.ok t → t ≠ WaitTimeout.infinite)
    ∧ (monitor_client_read_timeout m = none ↔ m = INFINITE) := by
  by_cases hm : m = INFINITE <;>
    simp [WaitTimeout.from_millis, monitor_client_read_timeout, hm,
      Except.toOption, WaitTimeout.infinite]

/-- Claim C9, witness: at the sentinel the conversion fails (and the monitor
client's unwrap panics); at 100 it yields the 100 ms timeout. -/
theorem C9_witness :
    (monitor_client_read_timeout 0xFFFFFFFF = none ↔ 0xFFFFFFFF = INFINITE)
    ∧ WaitTimeout.from_millis 100 =
      Except.ok (WaitTimeout.Milliseconds 100) :=
  ⟨(C9_from_millis_rejects_infinite 0xFFFFFFFF (by norm_num)).2.2.2,
   (C9_from_millis_rejects_infinite 100 (by norm_num)).2.1 (by decide)⟩

/-- Claim C10: for every notification event kind (transfer-complete, error,
modification), if the corresponding optional handler was not supplied, the
adapter's stub returns the success status `S_OK` (zero, not a failure
status) to the OS. -/
theorem C10_absent_handler_returns_success (c : BackgroundCopyCallback) :
    (c.transferred_cb = none → transferred_stub c = S_OK)
    ∧ (c.error_cb = none → error_stub c = S_OK)
    ∧ (c.modification_cb = none → modification_stub c = S_OK)
    ∧ S_OK = 0
    ∧ S_OK ≠ E_FAIL := by
  refine ⟨?_, ?_, ?_, rfl, by decide⟩ <;> intro h <;>
    simp [transferred_stub, error_stub, modification_stub, h]

/-- Claim C10, witness: the three stubs on an adapter with no handlers. -/
theorem C10_witness :
    transferred_stub no_handlers = S_OK
    ∧ error_stub no_handlers = S_OK
    ∧ modification_stub no_handlers = S_OK :=
  ⟨(C10_absent_handler_returns_success no_handlers).1 rfl,
   (C10_absent_handler_returns_success no_handlers).2.1 rfl,
   (C10_absent_handler_returns_success no_handlers).2.2.1 rfl⟩

/-- Claim C3: for every `get_status` call, checked on the freshly observed
shared state: (1) if the shutdown flag is already set it returns the
not-connected error immediately, without entering the fetch phase and
without touching the shared state; (2) otherwise, if the elapsed time
exceeds the timeout, it returns the timeout error and transitions the
monitor to shutdown (the single outcome of that call); (3) otherwise the
loop pass fetches immediately exactly when the notified flag is set, no
snapshot has been taken yet, or `min(last_snapshot_time + interval,
call_start + timeout)` is already past — and otherwise it decides to wait on
the condition variable until exactly that wake time, after which the call
re-runs the same checks on the next observation. -/
theorem C3_get_status_wait_loop (started timeout fetch_time : Nat)
    (m : MonitorLocal) (o : MonitorObs) (rest : List MonitorObs)
    (fetch : FetchOutcome) :
    (o.vars.shutdown = true →
      InProcessMonitor.get_status started timeout m (o :: rest) fetch_time
          fetch =
        some ⟨Except.error BitsClientError.NotConnected, o.vars, false, m⟩)
    ∧ (o.vars.shutdown = false → started + timeout < o.now →
        InProcessMonitor.get_status started timeout m (o :: rest) fetch_time
            fetch =
          some ⟨Except.error BitsClientError.Timeout,
            { o.vars with shutdown := true }, false, m⟩)
    ∧ (o.vars.shutdown = false → ¬ started + timeout < o.now →
        (get_status_step started timeout m.last_status_time o.vars o.now =
            GetStatusStep.fetchNow ↔
          (o.vars.notified = true ∨ m.last_status_time = none ∨
            ∃ t, m.last_status_time = some t ∧
              min (t + o.vars.interval_millis) (started + timeout) < o.now)))
    ∧ (∀ w, get_status_step started timeout m.last_status_time o.vars o.now =
          GetStatusStep.waitUntil w →
        (∃ t, m.last_status_time = some t ∧
            w = min (t + o.vars.interval_millis) (started + timeout))
        ∧ InProcessMonitor.get_status started timeout m (o :: rest) fetch_time
              fetch =
            InProcessMonitor.get_status started timeout m rest fetch_time
              fetch) := by
  refine ⟨?_, ?_, ?_, ?_⟩
  · intro h
    simp [InProcessMonitor.get_status, get_status_loop, get_status_step, h]
  · intro h1 h2
    simp [InProcessMonitor.get_status, get_status_loop, get_status_step, h1,
      h2]
  · intro h1 h2
    rcases hl : m.last_status_time with _ | t
    · simp [get_status_step, wait_until_time, h1, h2, hl]
    · by_cases hn : o.vars.notified
      · simp [get_status_step, wait_until_time, h1, h2, hl, hn]
      · by_cases hw :
          min (t + o.vars.interval_millis) (started + timeout) < o.now
        · simp [get_status_step, wait_until_time, h1, h2, hl, hn, hw]
          exact (inf_lt_iff.mp hw).resolve_right h2
        · simp [get_status_step, wait_until_time, h1, h2, hl, hn, hw]
          exact (le_inf_iff.mp (not_lt.mp hw)).1
  · intro w hw
    by_cases h1 : o.vars.shutdown
    · simp [get_status_step, h1] at hw
    by_cases h2 : started + timeout < o.now
    · simp [get_status_step, h1, h2] at hw
    rcases hl : m.last_status_time with _ | t
    · simp [get_status_step, wait_until_time, h1, h2, hl] at hw
    by_cases hn : o.vars.notified
    · simp [get_status_step, wait_until_time, h1, h2, hl, hn] at hw
    by_cases hlt : min (t + o.vars.interval_millis) (started + timeout) < o.now
    · simp [get_status_step, wait_until_time, h1, h2, hl, hn, hlt] at hw
    · have hweq : w = min (t + o.vars.interval_millis) (started + timeout) := by
        simp [get_status_step, wait_until_time, h1, h2, hl, hn, hlt] at hw
        exact hw.symm
      refine ⟨⟨t, rfl, hweq⟩, ?_⟩
      simp [InProcessMonitor.get_status, get_status_loop, get_status_step,
        wait_until_time, h1, h2, hl, hn, hlt]

/-- Claim C3, witness: a call that observes the shutdown flag already set
fails not-connected at once, and a call whose first observation is already
past the timeout fails timeout and sets the shutdown flag. -/
theorem C3_witness :
    InProcessMonitor.get_status 0 5 ⟨none, none⟩ [⟨⟨1000, false, true⟩, 0⟩] 0
        FetchOutcome.statusErr =
      some ⟨Except.error BitsClientError.NotConnected, ⟨1000, false, true⟩,
        false, ⟨none, none⟩⟩
    ∧ InProcessMonitor.get_status 0 5 ⟨none, none⟩
        [⟨⟨1000, false, false⟩, 10⟩] 0 FetchOutcome.statusErr =
      some ⟨Except.error BitsClientError.Timeout, ⟨1000, false, true⟩, false,
        ⟨none, none⟩⟩ :=
  ⟨(C3_get_status_wait_loop 0 5 0 ⟨none, none⟩ ⟨⟨1000, false, true⟩, 0⟩ []
      FetchOutcome.statusErr).1 rfl,
   (C3_get_status_wait_loop 0 5 0 ⟨none, none⟩ ⟨⟨1000, false, false⟩, 10⟩ []
      FetchOutcome.statusErr).2.1 rfl (by norm_num)⟩

/-- Claim C8: on every successful status fetch the monitor has reset the
notified flag, records the fetch instant as the new last-snapshot time, and
returns a snapshot whose source-URL field is present exactly when the job's
current URL differs from the URL previously reported by this monitor — so
the first report always carries the URL and an unchanged URL yields an
absent field — while the remembered last-reported URL becomes the current
one. -/
theorem C8_successful_fetch_report (started timeout fetch_time : Nat)
    (m : MonitorLocal) (trace : List MonitorObs) (status : BitsJobStatus)
    (url : String) (r : GetStatusRun) (js : JobStatus)
    (hr : InProcessMonitor.get_status started timeout m trace fetch_time
        (FetchOutcome.ok status url) = some r)
    (hok : r.result = Except.ok js) :
    r.vars.notified = false
    ∧ r.monitor.last_status_time = some fetch_time
    ∧ js.url = (if m.last_url = some url then none else some url)
    ∧ (js.url = some url ↔ ¬ m.last_url = some url)
    ∧ (js.url = none ↔ m.last_url = some url)
    ∧ (m.last_url = none → js.url = some url)
    ∧ r.monitor.last_url = some url := by
  simp only [InProcessMonitor.get_status] at hr
  rcases hl : get_status_loop started timeout m.last_status_time trace with
    _ | le
  · rw [hl] at hr
    simp at hr
  · rw [hl] at hr
    cases le with
    | errNotConnected v =>
      simp only [Option.some.injEq] at hr
      subst hr
      simp at hok
    | errTimeout v =>
      simp only [Option.some.injEq] at hr
      subst hr
      simp at hok
    | fetchFrom v =>
      simp only [Option.some.injEq] at hr
      subst hr
      simp only [Except.ok.injEq] at hok
      subst hok
      refine ⟨get_status_loop_fetch_notified_false started timeout
        m.last_status_time trace v hl, rfl, rfl, ?_, ?_, ?_, ?_⟩ <;>
        by_cases hcase : m.last_url = some url <;> simp [hcase]

/-- Claim C8, witness: a first report (no previously reported URL) resets
the notified flag, records the fetch time, and carries the URL. -/
theorem C8_witness :
    sample_run.vars.notified = false
    ∧ sample_run.monitor.last_status_time = some 5
    ∧ sample_js.url = some "u" := by
  have h := C8_successful_fetch_report 0 10000 5 ⟨none, none⟩
    [⟨⟨1000, true, false⟩, 0⟩] sample_status "u" sample_run sample_js rfl rfl
  exact ⟨h.1, h.2.1, h.2.2.2.2.2.1 rfl⟩
